import Mathlib

/-!
Shallow embedding of the go-notify client library (package notify).
The definitions below are translated from notify.go: the wire-name
constant block, the Notification value type and its Send payload
construction, Dismiss, the CloseReason string rendering, SetUrgency,
and the notifier signal-dispatch loop with its Close teardown.
-/

namespace Notify

/- Wire contract constants (notify.go const block, lines 10-23). -/

def dbusObjectPath : String := "/org/freedesktop/Notifications"

def dbusNotificationsInterface : String := "org.freedesktop.Notifications"

def signalNotificationClosed : String := "org.freedesktop.Notifications.NotificationClosed"

def signalActionInvoked : String := "org.freedesktop.Notifications.ActionInvoked"

def callCloseNotification : String := "org.freedesktop.Notifications.CloseNotification"

def callNotify : String := "org.freedesktop.Notifications.Notify"

/-- A Go slice value: nil is distinct from an allocated empty slice. -/
inductive GoSlice (α : Type) where
  | nil
  | mk (elems : List α)
  deriving DecidableEq, Repr

/-- Go len() of a slice; len(nil) is 0. -/
def GoSlice.len {α : Type} : GoSlice α → Nat
  | .nil => 0
  | .mk l => l.length

/-- A dbus.Variant payload as used by this program: the dynamically typed
values appearing in signal bodies and hint maps (uint32, int32, string,
byte). -/
inductive Variant where
  | u32 (v : Nat)
  | i32 (v : Int)
  | str (s : String)
  | byte (b : Nat)
  deriving DecidableEq, Repr

/-- Go map lookup on an association-list model of map[string]dbus.Variant. -/
def mapGet (m : List (String × Variant)) (k : String) : Option Variant :=
  match m with
  | [] => none
  | (k0, v0) :: rest => if k0 = k then some v0 else mapGet rest k

/-- Go map assignment m[k] = v: overwrites the binding in place when the key
is present, otherwise adds it. -/
def mapSet (m : List (String × Variant)) (k : String) (v : Variant) :
    List (String × Variant) :=
  match m with
  | [] => [(k, v)]
  | (k0, v0) :: rest => if k0 = k then (k, v) :: rest else (k0, v0) :: mapSet rest k v

/-- Lookup through a possibly-nil Go map (nil map reads yield no entry). -/
def hintsGet (m : Option (List (String × Variant))) (k : String) : Option Variant :=
  match m with
  | none => none
  | some l => mapGet l k

/-- NotificationAction (notify.go lines 59-64): an (identifier, label) pair. -/
structure NotificationAction where
  Name : String
  Summary : String
  deriving DecidableEq, Repr

/- Expiry (notify.go lines 67-76): type Expiry int32 with
Server = iota - 1 = -1, then Timeout = 0, then Never = 1. -/

/-- Expiry constant Server = -1 (first of the iota block). -/
def Server : Int := -1

/-- Expiry constant Timeout = 0 (second of the iota block). -/
def Timeout : Int := 0

/-- Expiry constant Never = 1 (third of the iota block). -/
def Never : Int := 1

/- Urgency (notify.go lines 79-85): type Urgency byte, Low = 0,
Normal = 1, Critical = 2. -/

def Low : Nat := 0

def Normal : Nat := 1

def Critical : Nat := 2

/-- Notification (notify.go lines 29-55). ReplacesID is an ID (uint32),
Actions a nil-able slice, Hints a nil-able map, Expire an Expiry (int32),
Timeout a time.Duration counted in nanoseconds (int64). -/
structure Notification where
  AppName : String
  AppIcon : String
  ReplacesID : Nat
  Summary : String
  Body : String
  Actions : GoSlice NotificationAction
  Hints : Option (List (String × Variant))
  Expire : Int
  Timeout : Int
  deriving DecidableEq, Repr

/-- SetUrgency (notify.go lines 88-94): allocate the Hints map when nil,
then set the "urgency" key to the variant-wrapped urgency byte; the
receiver pointer is returned, so the pointee is this updated record. -/
def SetUrgency (note : Notification) (urgency : Nat) : Notification :=
  let hints := match note.Hints with
    | none => []
    | some m => m
  { note with Hints := some (mapSet hints "urgency" (Variant.byte urgency)) }

/-- A one-cell-per-reference heap of Notification values, for the pointer
receiver of SetUrgency. -/
structure Heap where
  cells : List Notification

/-- Dereference a *Notification. -/
def readRef (h : Heap) (r : Nat) : Option Notification := h.cells[r]?

/-- Store through a *Notification. -/
def writeRef (h : Heap) (r : Nat) (v : Notification) : Heap := ⟨h.cells.set r v⟩

/-- (note *Notification) SetUrgency run against the heap: mutates the
pointee at r and returns the receiver pointer r itself. -/
def SetUrgencyRef (h : Heap) (r : Nat) (urgency : Nat) : Heap × Nat :=
  match readRef h r with
  | none => (h, r)
  | some note => (writeRef h r (SetUrgency note urgency), r)

/-- The actions slice Send builds (notify.go lines 101-108): start from the
non-nil empty slice literal; when note.Actions is non-nil, append each
action's Name then its Summary in order. -/
def buildActions (acts : GoSlice NotificationAction) : GoSlice String :=
  match acts with
  | .nil => .mk []
  | .mk l => .mk (l.foldl (fun acc act => acc ++ [act.Name, act.Summary]) [])

/-- Wrap an Int into int32 range, as a Go int32 conversion does. -/
def int32cast (x : Int) : Int := Int.emod (x + 2 ^ 31) (2 ^ 32) - 2 ^ 31

/-- time.Duration.Milliseconds(): nanosecond count divided by 10^6,
truncating toward zero as Go integer division does. -/
def durationMilliseconds (d : Int) : Int := Int.tdiv d 1000000

/-- The wire expire_timeout Send computes (notify.go lines 110-113):
expire := int32(note.Expire) (an identity conversion, Expiry being int32);
if expire > 0 it is replaced by int32(note.Timeout.Milliseconds()). -/
def expireWire (note : Notification) : Int :=
  let expire := note.Expire
  if expire > 0 then int32cast (durationMilliseconds note.Timeout) else expire

/-- A D-Bus method-call argument as marshalled by this program. -/
inductive DBusValue where
  | u32 (v : Nat)
  | i32 (v : Int)
  | str (s : String)
  | strArray (xs : GoSlice String)
  | dict (m : Option (List (String × Variant)))
  deriving DecidableEq, Repr

/-- An outbound method call: destination, object path, method, arguments. -/
structure MethodCall where
  dest : String
  path : String
  method : String
  body : List DBusValue
  deriving DecidableEq, Repr

/-- The Notify call Send issues (notify.go lines 115-124), with the
destination and path from conn.Object and the eight arguments in order. -/
def sendCall (note : Notification) : MethodCall :=
  { dest := dbusNotificationsInterface
    path := dbusObjectPath
    method := callNotify
    body := [DBusValue.str note.AppName,
             DBusValue.u32 note.ReplacesID,
             DBusValue.str note.AppIcon,
             DBusValue.str note.Summary,
             DBusValue.str note.Body,
             DBusValue.strArray (buildActions note.Actions),
             DBusValue.dict note.Hints,
             DBusValue.i32 (expireWire note)] }

/-- A Go error value (its message). -/
def GoError := String

instance : DecidableEq GoError := fun a b => String.decEq a b

/-- errors.New("notification IDs must be greater than zero")
(notify.go line 139). -/
def invalidIDError : GoError := "notification IDs must be greater than zero"

/-- The CloseNotification call Dismiss issues for a nonzero id
(notify.go lines 142-143). -/
def closeNotificationCall (id : Nat) : MethodCall :=
  { dest := dbusNotificationsInterface
    path := dbusObjectPath
    method := callCloseNotification
    body := [DBusValue.u32 id] }

/-- Dismiss (notify.go lines 137-145): reject id 0 with an error before any
bus interaction; otherwise issue CloseNotification and return the bus
call's error. The result pairs the list of bus calls issued with the
returned error; busErr gives the bus's reply to each call. -/
def Dismiss (busErr : MethodCall → Option GoError) (id : Nat) :
    List MethodCall × Option GoError :=
  if id = 0 then ([], some invalidIDError)
  else ([closeNotificationCall id], busErr (closeNotificationCall id))

/- CloseReason (notify.go lines 353-367): type CloseReason uint32 with
Expired = iota + 1 = 1, DismissedByUser = 2, DismissedByCall = 3,
Unknown = 4. -/

def Expired : Nat := 1

def DismissedByUser : Nat := 2

def DismissedByCall : Nat := 3

def Unknown : Nat := 4

/-- CloseReason.String (notify.go lines 369-382). -/
def closeReasonString (r : Nat) : String :=
  if r = Expired then "Expired"
  else if r = DismissedByUser then "DismissedByUser"
  else if r = DismissedByCall then "ClosedByCall"
  else if r = Unknown then "Unknown"
  else "Other"

/- ------------------------------------------------------------------
The notifier: signal dispatch loop and teardown (notify.go 399-487).
------------------------------------------------------------------ -/

/-- An inbound dbus.Signal frame as the dispatcher sees it: its Name and
its dynamically typed Body. -/
structure Frame where
  name : String
  body : List Variant
  deriving DecidableEq, Repr

/-- A Go runtime panic raised while evaluating the callback arguments:
indexing Body out of range, or an unchecked type assertion failing. -/
inductive GoPanic where
  | indexOutOfRange
  | typeAssertion
  deriving DecidableEq, Repr

/-- signal.Body[i] on a Go []interface value: panics when out of range. -/
def bodyAt (body : List Variant) (i : Nat) : Except GoPanic Variant :=
  match body, i with
  | [], _ => .error .indexOutOfRange
  | v :: _, 0 => .ok v
  | _ :: rest, j + 1 => bodyAt rest j

/-- The unchecked type assertion v.(uint32). -/
def castU32 : Variant → Except GoPanic Nat
  | .u32 v => .ok v
  | _ => .error .typeAssertion

/-- The unchecked type assertion v.(string). -/
def castStr : Variant → Except GoPanic String
  | .str s => .ok s
  | _ => .error .typeAssertion

/-- Argument evaluation for go onClosed(ID(Body[0].(uint32)),
CloseReason(Body[1].(uint32))) (notify.go lines 460-463), left to right. -/
def decodeClosedBody (body : List Variant) : Except GoPanic (Nat × Nat) := do
  let v0 ← bodyAt body 0
  let id ← castU32 v0
  let v1 ← bodyAt body 1
  let reason ← castU32 v1
  return (id, reason)

/-- Argument evaluation for go onAction(ID(Body[0].(uint32)),
Body[1].(string)) (notify.go lines 467-470), left to right. -/
def decodeActionBody (body : List Variant) : Except GoPanic (Nat × String) := do
  let v0 ← bodyAt body 0
  let id ← castU32 v0
  let v1 ← bodyAt body 1
  let key ← castStr v1
  return (id, key)

/-- Which registered callback one loop iteration hands a frame to, and
with which decoded arguments; noCallback means the frame was dropped. -/
inductive Dispatch where
  | noCallback
  | closed (id : Nat) (reason : Nat)
  | action (id : Nat) (key : String)
  deriving DecidableEq, Repr

/-- The switch over signal.Name inside receiveSignals (notify.go lines
457-472). onClosedSet / onActionSet record whether the corresponding
handler field is non-nil; when a handler is nil its arm does nothing, so
the body is never inspected. A Go panic from the argument evaluation is
the .error case. -/
def handleSignal (onClosedSet onActionSet : Bool) (s : Frame) :
    Except GoPanic Dispatch :=
  if s.name = signalNotificationClosed then
    if onClosedSet then
      (decodeClosedBody s.body).map (fun p => Dispatch.closed p.1 p.2)
    else .ok .noCallback
  else if s.name = signalActionInvoked then
    if onActionSet then
      (decodeActionBody s.body).map (fun p => Dispatch.action p.1 p.2)
    else .ok .noCallback
  else .ok .noCallback

/-- What the select statement in receiveSignals (notify.go lines 453-456)
woke up on: the cancelled context's Done channel, or an inbound frame. -/
inductive LoopEvent where
  | ctxDone
  | signal (f : Frame)
  deriving DecidableEq, Repr

/-- Outcome of one iteration of the receive loop: the loop returned, or it
dispatched (or dropped) a frame and continues, or the iteration panicked,
killing the loop's goroutine. -/
inductive StepResult where
  | exited
  | dispatched (d : Dispatch)
  | panicked (p : GoPanic)
  deriving DecidableEq, Repr

/-- One iteration of receiveSignals (notify.go lines 451-475): the Done
branch returns; the signal branch runs the dispatch switch. -/
def receiveStep (onClosedSet onActionSet : Bool) : LoopEvent → StepResult
  | .ctxDone => .exited
  | .signal f =>
    match handleSignal onClosedSet onActionSet f with
    | .ok d => .dispatched d
    | .error p => .panicked p

/-- The notifier's lifecycle state: whether the context created by New has
been cancelled, whether the signal channel is still registered with the
connection, and whether each handler was supplied. -/
structure NotifierState where
  cancelled : Bool
  signalRegistered : Bool
  onClosedSet : Bool
  onActionSet : Bool
  deriving DecidableEq, Repr

/-- The state New leaves behind after a successful subscription
(notify.go lines 423-449). -/
def newNotifier (onClosedSet onActionSet : Bool) : NotifierState :=
  { cancelled := false
    signalRegistered := true
    onClosedSet := onClosedSet
    onActionSet := onActionSet }

/-- The context's Done channel is closed exactly when the context has been
cancelled, making the ctxDone loop event available. -/
def ctxDoneReady (n : NotifierState) : Bool := n.cancelled

/-- The observable operations Close performs, in program order. Only
busRemoveMatch talks to the bus (RemoveMatchSignal issues a RemoveMatch
bus call); cancelCtx and removeSignalChan are local to the process. -/
inductive CloseEffect where
  | cancelCtx
  | removeSignalChan
  | busRemoveMatch (path iface : String)
  deriving DecidableEq, Repr

/-- notifier.Close (notify.go lines 478-487): n.shutdown() cancels the
context, n.conn.RemoveSignal drops the channel registration, and the
result of the RemoveMatchSignal bus call is returned. removeMatchReply is
the bus's reply to that RemoveMatch call. The returned triple is the new
state, the ordered effect trace, and Close's return value. -/
def Close (removeMatchReply : Option GoError) (n : NotifierState) :
    NotifierState × List CloseEffect × Option GoError :=
  ({ n with cancelled := true, signalRegistered := false },
   [CloseEffect.cancelCtx,
    CloseEffect.removeSignalChan,
    CloseEffect.busRemoveMatch dbusObjectPath dbusNotificationsInterface],
   removeMatchReply)

/-- A NotificationClosed body the dispatch switch decodes without
panicking: indices 0 and 1 exist and both type-assert as uint32. -/
def wellFormedClosedBody (body : List Variant) : Bool :=
  match body[0]?, body[1]? with
  | some (Variant.u32 _), some (Variant.u32 _) => true
  | _, _ => false

/-- An ActionInvoked body the dispatch switch decodes without panicking:
index 0 type-asserts as uint32 and index 1 as string. -/
def wellFormedActionBody (body : List Variant) : Bool :=
  match body[0]?, body[1]? with
  | some (Variant.u32 _), some (Variant.str _) => true
  | _, _ => false

/-- A notification requesting the Timeout expiry policy with a 5000ms
timeout (5000 ms = 5000000000 ns as a time.Duration). -/
def fiveSecondTimeoutNote : Notification :=
  { AppName := "app", AppIcon := "", ReplacesID := 0, Summary := "s", Body := "",
    Actions := GoSlice.nil, Hints := none, Expire := Timeout, Timeout := 5000000000 }

/-- A concrete notification used to instantiate the SetUrgency theorem. -/
def urgencyProbeNote : Notification :=
  { AppName := "probe", AppIcon := "mail-unread", ReplacesID := 3, Summary := "sum",
    Body := "b", Actions := GoSlice.mk [⟨"ok", "Okay"⟩],
    Hints := some [("image-data", Variant.str "img")], Expire := Server, Timeout := 0 }

/-- A two-cell heap used to instantiate the SetUrgency theorem. -/
def urgencyProbeHeap : Heap := ⟨[urgencyProbeNote, fiveSecondTimeoutNote]⟩

/- ------------------------------------------------------------------
Helper lemmas.
------------------------------------------------------------------ -/

theorem actions_foldl_eq (l : List NotificationAction) (acc : List String) :
    l.foldl (fun acc act => acc ++ [act.Name, act.Summary]) acc
      = acc ++ l.foldr (fun act r => act.Name :: act.Summary :: r) [] := by
  induction l generalizing acc with
  | nil => simp
  | cons a t ih => simp [List.foldl_cons, List.foldr_cons, ih]

theorem actions_foldr_length (l : List NotificationAction) :
    (l.foldr (fun act r => act.Name :: act.Summary :: r) []).length
      = 2 * l.length := by
  induction l with
  | nil => rfl
  | cons a t ih => simp [List.foldr_cons, ih]; omega

theorem mapGet_mapSet_self (m : List (String × Variant)) (k : String) (v : Variant) :
    mapGet (mapSet m k v) k = some v := by
  induction m with
  | nil => simp [mapSet, mapGet]
  | cons p rest ih =>
    obtain ⟨k0, v0⟩ := p
    by_cases hk : k0 = k
    · simp [mapSet, mapGet, hk]
    · simp [mapSet, mapGet, hk, ih]

theorem mapGet_mapSet_ne (m : List (String × Variant)) (k k2 : String) (v : Variant)
    (h : k ≠ k2) :
    mapGet (mapSet m k v) k2 = mapGet m k2 := by
  induction m with
  | nil => simp [mapSet, mapGet, h]
  | cons p rest ih =>
    obtain ⟨k0, v0⟩ := p
    by_cases hk : k0 = k
    · subst hk
      simp [mapSet, mapGet, h]
    · by_cases hk2 : k0 = k2
      · subst hk2
        simp [mapSet, mapGet, hk]
      · simp [mapSet, mapGet, hk, hk2, ih]

theorem decodeClosedBody_malformed (body : List Variant)
    (h : wellFormedClosedBody body = false) :
    ∃ p, decodeClosedBody body = Except.error p := by
  rcases body with _ | ⟨v0, _ | ⟨v1, rest⟩⟩
  · exact ⟨GoPanic.indexOutOfRange, rfl⟩
  · cases v0
    case u32 a => exact ⟨GoPanic.indexOutOfRange, rfl⟩
    all_goals exact ⟨GoPanic.typeAssertion, rfl⟩
  · cases v0
    case u32 a =>
      cases v1
      case u32 b => simp [wellFormedClosedBody] at h
      all_goals exact ⟨GoPanic.typeAssertion, rfl⟩
    all_goals exact ⟨GoPanic.typeAssertion, rfl⟩

theorem decodeActionBody_malformed (body : List Variant)
    (h : wellFormedActionBody body = false) :
    ∃ p, decodeActionBody body = Except.error p := by
  rcases body with _ | ⟨v0, _ | ⟨v1, rest⟩⟩
  · exact ⟨GoPanic.indexOutOfRange, rfl⟩
  · cases v0
    case u32 a => exact ⟨GoPanic.indexOutOfRange, rfl⟩
    all_goals exact ⟨GoPanic.typeAssertion, rfl⟩
  · cases v0
    case u32 a =>
      cases v1
      case str s => simp [wellFormedActionBody] at h
      all_goals exact ⟨GoPanic.typeAssertion, rfl⟩
    all_goals exact ⟨GoPanic.typeAssertion, rfl⟩

/- ------------------------------------------------------------------
Claim theorems.
------------------------------------------------------------------ -/

/-- C1 (code bug evidence): the Expiry iota block fixes Server = -1,
Timeout = 0, Never = 1, so Send's test `expire > 0` fires for the Never
policy and not for the Timeout policy. A notification with Expire =
Timeout and a 5000ms Timeout duration is transmitted with wire
expire_timeout 0 — the value meaning "never expire", where the claim
expects 5000 — while Expire = Never with the same duration transmits 5000
where the claim expects 0. Only Server → -1 behaves as claimed. This
contradicts the constants' own doc comments, so it is a slip in the code,
not in the spec. -/
theorem send_expiry_encoding_bug :
    Server = -1 ∧ Timeout = 0 ∧ Never = 1
      ∧ expireWire fiveSecondTimeoutNote = 0
      ∧ expireWire { fiveSecondTimeoutNote with Expire := Never } = 5000
      ∧ expireWire { fiveSecondTimeoutNote with Expire := Server } = -1
      ∧ (sendCall fiveSecondTimeoutNote).body[7]? = some (DBusValue.i32 0) :=
  ⟨rfl, rfl, rfl, by decide, by decide, by decide, by decide⟩

/-- C2 (counterexample): a frame bearing the recognized NotificationClosed
signal name whose body has the wrong element types is not silently
skipped when the on-closed handler is registered: the unchecked type
assertion on Body[0] raises a Go panic, which terminates the receive
goroutine rather than letting the loop continue. -/
theorem receive_malformed_body_panics_cex :
    receiveStep true true
        (LoopEvent.signal
          ⟨signalNotificationClosed, [Variant.str "oops", Variant.str "x"]⟩)
      = StepResult.panicked GoPanic.typeAssertion := by decide

/-- C2 (amended): a frame with an unrecognized signal name is silently
skipped, as is a recognized-name frame whose corresponding handler is
unregistered (its body is then never inspected); but when the handler is
registered, a body failing the expected index bounds or type assertions
raises a Go panic instead of being skipped, killing the receive loop's
goroutine. -/
theorem receive_decode_mismatch_amended (hc ha : Bool) (name : String)
    (body : List Variant) :
    (name ≠ signalNotificationClosed → name ≠ signalActionInvoked →
        receiveStep hc ha (LoopEvent.signal ⟨name, body⟩)
          = StepResult.dispatched Dispatch.noCallback)
      ∧ (name = signalNotificationClosed → hc = false →
        receiveStep hc ha (LoopEvent.signal ⟨name, body⟩)
          = StepResult.dispatched Dispatch.noCallback)
      ∧ (name = signalActionInvoked → ha = false →
        receiveStep hc ha (LoopEvent.signal ⟨name, body⟩)
          = StepResult.dispatched Dispatch.noCallback)
      ∧ (name = signalNotificationClosed → hc = true →
          wellFormedClosedBody body = false →
        ∃ p, receiveStep hc ha (LoopEvent.signal ⟨name, body⟩)
          = StepResult.panicked p)
      ∧ (name = signalActionInvoked → ha = true →
          wellFormedActionBody body = false →
        ∃ p, receiveStep hc ha (LoopEvent.signal ⟨name, body⟩)
          = StepResult.panicked p) := by
  refine ⟨?_, ?_, ?_, ?_, ?_⟩
  · intro h1 h2
    simp [receiveStep, handleSignal, h1, h2]
  · intro h1 h2
    subst h1; subst h2
    simp [receiveStep, handleSignal]
  · intro h1 h2
    subst h1; subst h2
    simp [receiveStep, handleSignal,
      show signalActionInvoked ≠ signalNotificationClosed by decide]
  · intro h1 h2 h3
    subst h1; subst h2
    obtain ⟨p, hp⟩ := decodeClosedBody_malformed body h3
    exact ⟨p, by simp [receiveStep, handleSignal, hp, Except.map]⟩
  · intro h1 h2 h3
    subst h1; subst h2
    obtain ⟨p, hp⟩ := decodeActionBody_malformed body h3
    exact ⟨p, by simp [receiveStep, handleSignal, hp, Except.map,
      show signalActionInvoked ≠ signalNotificationClosed by decide]⟩

/-- C2 witness: the amended theorem instantiated — an unrelated bus signal
is dropped; a malformed closed-frame is dropped when no on-closed handler
is registered; an empty closed-body panics (index out of range) and an
action-body with a uint32 where the action key string belongs panics
(type assertion), both with handlers registered. -/
theorem receive_decode_mismatch_amended_witness :
    receiveStep true true
        (LoopEvent.signal ⟨"org.freedesktop.DBus.NameLost", [Variant.u32 1]⟩)
      = StepResult.dispatched Dispatch.noCallback
    ∧ receiveStep false true
        (LoopEvent.signal ⟨signalNotificationClosed, [Variant.str "bad"]⟩)
      = StepResult.dispatched Dispatch.noCallback
    ∧ (∃ p, receiveStep true true
        (LoopEvent.signal ⟨signalNotificationClosed, []⟩)
      = StepResult.panicked p)
    ∧ (∃ p, receiveStep true true
        (LoopEvent.signal ⟨signalActionInvoked, [Variant.u32 7, Variant.u32 8]⟩)
      = StepResult.panicked p) :=
  ⟨(receive_decode_mismatch_amended true true "org.freedesktop.DBus.NameLost"
      [Variant.u32 1]).1 (by decide) (by decide),
   (receive_decode_mismatch_amended false true signalNotificationClosed
      [Variant.str "bad"]).2.1 rfl rfl,
   (receive_decode_mismatch_amended true true signalNotificationClosed
      []).2.2.2.1 rfl rfl (by decide),
   (receive_decode_mismatch_amended true true signalActionInvoked
      [Variant.u32 7, Variant.u32 8]).2.2.2.2 rfl rfl (by decide)⟩

/-- C3: the receive loop dispatches by signal name: a well-formed
NotificationClosed frame invokes only the on-closed callback (when
registered) with its id and reason; a well-formed ActionInvoked frame
invokes only the on-action callback (when registered) with its id and
action key, never on-closed; a frame with any other name invokes no
callback. -/
theorem receive_dispatch_by_name (hc ha : Bool) (id reason : Nat) (key : String)
    (name : String) (body : List Variant)
    (h1 : name ≠ signalNotificationClosed) (h2 : name ≠ signalActionInvoked) :
    receiveStep hc ha
        (LoopEvent.signal
          ⟨signalNotificationClosed, [Variant.u32 id, Variant.u32 reason]⟩)
      = StepResult.dispatched
          (if hc then Dispatch.closed id reason else Dispatch.noCallback)
    ∧ receiveStep hc ha
        (LoopEvent.signal
          ⟨signalActionInvoked, [Variant.u32 id, Variant.str key]⟩)
      = StepResult.dispatched
          (if ha then Dispatch.action id key else Dispatch.noCallback)
    ∧ receiveStep hc ha (LoopEvent.signal ⟨name, body⟩)
      = StepResult.dispatched Dispatch.noCallback := by
  refine ⟨?_, ?_, ?_⟩
  · cases hc <;> rfl
  · cases ha <;> rfl
  · simp [receiveStep, handleSignal, h1, h2]

/-- C3 witness: instantiation with both handlers registered, a
NotificationClosed(42, 1) frame, an ActionInvoked(7, "cancel") frame, and
a NameAcquired frame that matches neither recognized name. -/
theorem receive_dispatch_by_name_witness :
    ("org.freedesktop.DBus.NameAcquired" ≠ signalNotificationClosed)
    ∧ ("org.freedesktop.DBus.NameAcquired" ≠ signalActionInvoked)
    ∧ (receiveStep true true
        (LoopEvent.signal
          ⟨signalNotificationClosed, [Variant.u32 42, Variant.u32 1]⟩)
      = StepResult.dispatched
          (if true then Dispatch.closed 42 1 else Dispatch.noCallback)
    ∧ receiveStep true true
        (LoopEvent.signal
          ⟨signalActionInvoked, [Variant.u32 42, Variant.str "cancel"]⟩)
      = StepResult.dispatched
          (if true then Dispatch.action 42 "cancel" else Dispatch.noCallback)
    ∧ receiveStep true true
        (LoopEvent.signal ⟨"org.freedesktop.DBus.NameAcquired", [Variant.u32 9]⟩)
      = StepResult.dispatched Dispatch.noCallback) :=
  ⟨by decide, by decide,
   receive_dispatch_by_name true true 42 1 "cancel"
     "org.freedesktop.DBus.NameAcquired" [Variant.u32 9] (by decide) (by decide)⟩

/-- C4: Dismiss(0) fails with the invalid-argument error before any bus
interaction, whatever the bus would reply; Dismiss(id) for id > 0 issues
exactly the CloseNotification call and returns whatever error the bus
reports for it. -/
theorem dismiss_zero_rejected (busErr : MethodCall → Option GoError) (id : Nat)
    (h : 0 < id) :
    Dismiss busErr 0 = ([], some invalidIDError)
      ∧ Dismiss busErr id
        = ([closeNotificationCall id], busErr (closeNotificationCall id)) := by
  constructor
  · rfl
  · have hz : ¬ id = 0 := by omega
    simp [Dismiss, hz]

/-- C4 witness: instantiation at id 7 with a bus that reports no error. -/
theorem dismiss_zero_rejected_witness :
    0 < 7
    ∧ (Dismiss (fun _ => none) 0 = ([], some invalidIDError)
    ∧ Dismiss (fun _ => none) 7
      = ([closeNotificationCall 7],
         (fun _ => none : MethodCall → Option GoError) (closeNotificationCall 7))) :=
  ⟨by decide, dismiss_zero_rejected (fun _ => none) 7 (by decide)⟩

/-- C5 (counterexample): after a first successful Close, a second Close is
not a bus-silent no-op: it issues the RemoveMatch bus call again, and when
the bus rejects that repeated removal the second call returns the error
rather than success. -/
theorem close_second_call_cex :
    CloseEffect.busRemoveMatch dbusObjectPath dbusNotificationsInterface
      ∈ (Close (some "org.freedesktop.DBus.Error.MatchRuleNotFound")
          (Close none (newNotifier true true)).1).2.1
    ∧ (Close (some "org.freedesktop.DBus.Error.MatchRuleNotFound")
        (Close none (newNotifier true true)).1).2.2
      = some "org.freedesktop.DBus.Error.MatchRuleNotFound"
    ∧ (Close none (newNotifier true true)).2.2 = none := by
  refine ⟨by decide, rfl, rfl⟩

/-- C5 (amended): Close keeps no already-closed flag, so a second call
after a successful first repeats the whole teardown — it cancels the
context again, removes the signal channel again, and issues another
RemoveMatch bus call — and returns that repeated bus call's result rather
than unconditional success. -/
theorem close_second_call_repeats_teardown (n : NotifierState)
    (r1 r2 : Option GoError) :
    Close r2 (Close r1 n).1
      = ({ n with cancelled := true, signalRegistered := false },
         [CloseEffect.cancelCtx, CloseEffect.removeSignalChan,
          CloseEffect.busRemoveMatch dbusObjectPath dbusNotificationsInterface],
         r2) := rfl

/-- C6: when the bus rejects the RemoveMatch filter removal, Close returns
that error; but cancelCtx comes before busRemoveMatch in Close's effect
order, and the resulting state is cancelled whatever the removal outcome,
so the Done branch of the receive loop is armed and a loop iteration
taking it exits. -/
theorem close_cancel_before_unsubscribe (n : NotifierState) (e : GoError)
    (hc ha : Bool) :
    (Close (some e) n).2.2 = some e
    ∧ (Close (some e) n).2.1
      = [CloseEffect.cancelCtx, CloseEffect.removeSignalChan,
         CloseEffect.busRemoveMatch dbusObjectPath dbusNotificationsInterface]
    ∧ (∀ r : Option GoError,
        (Close r n).1.cancelled = true ∧ ctxDoneReady (Close r n).1 = true)
    ∧ receiveStep hc ha LoopEvent.ctxDone = StepResult.exited :=
  ⟨rfl, rfl, fun _ => ⟨rfl, rfl⟩, rfl⟩

/-- C7: Send serializes the action list, preserving order, into the
alternating flat sequence name0, label0, name1, label1, ...; in
particular [("confirm","Confirm."),("cancel","Cancel.")] flattens to
["confirm","Confirm.","cancel","Cancel."]. -/
theorem send_actions_flatten (l : List NotificationAction) :
    buildActions (GoSlice.mk l)
      = GoSlice.mk (l.foldr (fun act r => act.Name :: act.Summary :: r) [])
    ∧ buildActions
        (GoSlice.mk [⟨"confirm", "Confirm."⟩, ⟨"cancel", "Cancel."⟩])
      = GoSlice.mk ["confirm", "Confirm.", "cancel", "Cancel."] := by
  constructor
  · simp [buildActions, actions_foldl_eq]
  · rfl

/-- C8: the CloseReason string rendering maps the four known reasons 1..4
to their named renderings; any value outside that range — 0 or anything
above 4 — takes the catch-all "Other" arm rather than failing; reason 1
renders as Expired and reason 99 as Other. -/
theorem closeReason_string_rendering (r : Nat) (h : r = 0 ∨ 4 < r) :
    closeReasonString Expired = "Expired"
    ∧ closeReasonString DismissedByUser = "DismissedByUser"
    ∧ closeReasonString DismissedByCall = "ClosedByCall"
    ∧ closeReasonString Unknown = "Unknown"
    ∧ closeReasonString r = "Other"
    ∧ closeReasonString 99 = "Other" := by
  have h1 : ¬ r = Expired := by simp [Expired]; omega
  have h2 : ¬ r = DismissedByUser := by simp [DismissedByUser]; omega
  have h3 : ¬ r = DismissedByCall := by simp [DismissedByCall]; omega
  have h4 : ¬ r = Unknown := by simp [Unknown]; omega
  refine ⟨by decide, by decide, by decide, by decide, ?_, by decide⟩
  simp [closeReasonString, h1, h2, h3, h4]

/-- C8 witness: instantiation at the out-of-range reason 99. -/
theorem closeReason_string_rendering_witness :
    (99 = 0 ∨ 4 < 99) ∧ closeReasonString 99 = "Other" :=
  ⟨by decide, (closeReason_string_rendering 99 (by decide)).2.2.2.2.1⟩

/-- C9: SetUrgency touches only the Hints map of the pointed-to
Notification — allocating it when nil and setting exactly the "urgency"
key to the variant-wrapped urgency — leaves every other field and every
other heap cell unchanged, and returns the receiver pointer itself. -/
theorem setUrgency_frame_effect (h : Heap) (r : Nat) (note : Notification)
    (u : Nat) (hr : readRef h r = some note) :
    (SetUrgencyRef h r u).2 = r
    ∧ readRef (SetUrgencyRef h r u).1 r = some (SetUrgency note u)
    ∧ (∀ q, q ≠ r → readRef (SetUrgencyRef h r u).1 q = readRef h q)
    ∧ (SetUrgency note u).AppName = note.AppName
    ∧ (SetUrgency note u).AppIcon = note.AppIcon
    ∧ (SetUrgency note u).ReplacesID = note.ReplacesID
    ∧ (SetUrgency note u).Summary = note.Summary
    ∧ (SetUrgency note u).Body = note.Body
    ∧ (SetUrgency note u).Actions = note.Actions
    ∧ (SetUrgency note u).Expire = note.Expire
    ∧ (SetUrgency note u).Timeout = note.Timeout
    ∧ (SetUrgency note u).Hints ≠ none
    ∧ hintsGet (SetUrgency note u).Hints "urgency" = some (Variant.byte u)
    ∧ (∀ k, k ≠ "urgency" →
        hintsGet (SetUrgency note u).Hints k = hintsGet note.Hints k) := by
  have hr2 : h.cells[r]? = some note := hr
  have hlen : r < h.cells.length := by
    by_contra hge
    have hnone : h.cells[r]? = none := List.getElem?_eq_none (by omega)
    simp [hnone] at hr2
  refine ⟨?_, ?_, ?_, rfl, rfl, rfl, rfl, rfl, rfl, rfl, rfl, ?_, ?_, ?_⟩
  · simp [SetUrgencyRef, readRef, hr2]
  · simp [SetUrgencyRef, readRef, writeRef, hr2,
      List.getElem?_set_eq_of_lt _ hlen]
  · intro q hq
    simp [SetUrgencyRef, readRef, writeRef, hr2,
      List.getElem?_set_ne (Ne.symm hq)]
  · cases note.Hints <;> simp [SetUrgency]
  · cases hh : note.Hints with
    | none => simp [SetUrgency, hh, hintsGet, mapSet, mapGet]
    | some m => simp [SetUrgency, hh, hintsGet, mapGet_mapSet_self]
  · intro k hk
    cases hh : note.Hints with
    | none =>
      simp [SetUrgency, hh, hintsGet, mapSet, mapGet, Ne.symm hk]
    | some m =>
      simp [SetUrgency, hh, hintsGet,
        mapGet_mapSet_ne m "urgency" k _ (Ne.symm hk)]

/-- C9 witness: instantiation on a two-cell heap at reference 0 with the
Critical urgency; the pointee already carries an unrelated hint key. -/
theorem setUrgency_frame_effect_witness :
    readRef urgencyProbeHeap 0 = some urgencyProbeNote
    ∧ (SetUrgencyRef urgencyProbeHeap 0 Critical).2 = 0
    ∧ readRef (SetUrgencyRef urgencyProbeHeap 0 Critical).1 0
      = some (SetUrgency urgencyProbeNote Critical)
    ∧ hintsGet (SetUrgency urgencyProbeNote Critical).Hints "urgency"
      = some (Variant.byte Critical)
    ∧ hintsGet (SetUrgency urgencyProbeNote Critical).Hints "image-data"
      = hintsGet urgencyProbeNote.Hints "image-data" :=
  ⟨by decide,
   (setUrgency_frame_effect urgencyProbeHeap 0 urgencyProbeNote Critical
     (by decide)).1,
   (setUrgency_frame_effect urgencyProbeHeap 0 urgencyProbeNote Critical
     (by decide)).2.1,
   (setUrgency_frame_effect urgencyProbeHeap 0 urgencyProbeNote Critical
     (by decide)).2.2.2.2.2.2.2.2.2.2.2.2.1,
   (setUrgency_frame_effect urgencyProbeHeap 0 urgencyProbeNote Critical
     (by decide)).2.2.2.2.2.2.2.2.2.2.2.2.2 "image-data" (by decide)⟩

/-- C10: the actions array Send transmits is never the nil slice and its
length is exactly twice the number of NotificationAction entries; in
particular a Notification whose Actions field is nil transmits an
allocated empty array, and the sixth Notify argument is exactly this
array. -/
theorem send_actions_never_nil (note : Notification)
    (a : GoSlice NotificationAction) :
    buildActions a ≠ GoSlice.nil
    ∧ (buildActions a).len = 2 * a.len
    ∧ buildActions GoSlice.nil = GoSlice.mk []
    ∧ (sendCall note).body[5]?
      = some (DBusValue.strArray (buildActions note.Actions)) := by
  refine ⟨?_, ?_, rfl, rfl⟩
  · cases a <;> simp [buildActions]
  · cases a with
    | nil => rfl
    | mk l =>
      simp [buildActions, GoSlice.len, actions_foldl_eq, actions_foldr_length]

end Notify
